import Mathlib

/-!
Shallow embedding of `src/libs/jwst-storage/src/database/mod.rs` (OctoBase).

The database is modelled as an explicit state (`DBState`) holding the three
tables created by `init_db` — `users`, `workspaces`, `permissions` — as lists
of rows, together with one serial-id counter per table (the schema declares
`SERIAL` / `BIGSERIAL` primary keys, so fresh rows get the next counter value
and every stored id is below the counter). Timestamps (`created_at`) and the
`google_users` table play no role in any verified property and are omitted.

Each `async fn` of `DBContext` becomes a pure function from a `DBState` (and
the query arguments) to its result paired with the successor state; SQL
statements are translated row-by-row:
  * `fetch_optional` of a `SELECT ... WHERE c` is `(rows.filter c).head?`;
  * `INSERT ... ON CONFLICT DO NOTHING` first checks the relevant UNIQUE
    constraint and inserts nothing on a hit;
  * `UPDATE`/`DELETE` map/filter the row list, and `rows_affected != 0`
    is the existence of a matching row;
  * the multi-statement transaction of `create_user` either runs to the end
    or (on the email-collision early return) is dropped without committing,
    so the function returns the input state unchanged in that branch.

The row types mirror `database/model.rs` (referenced by `mod.rs` but not part
of the sources); their fields are exactly the columns the SQL of `mod.rs`
reads and writes, and the two enums carry the variants named by the design
(`Private | Normal` workspaces; `Owner | Admin | Write | Read` roles — only
equality with `Owner` / `Normal` is ever consulted by `mod.rs`, never the
numeric discriminants).
-/

namespace JwstStorage

inductive WorkspaceType where
  | Private
  | Normal
deriving DecidableEq, Repr

inductive PermissionType where
  | Read
  | Write
  | Admin
  | Owner
deriving DecidableEq, Repr

/-- row of the `users` table: `id SERIAL PRIMARY KEY, name, email UNIQUE,
avatar_url, password` (the `token_nonce` column is only consulted by the
token queries, which no claim touches, and is omitted). -/
structure User where
  id : Nat
  name : String
  email : String
  avatar_url : Option String
  password : Option String
deriving DecidableEq, Repr

/-- argument record of `create_user` (from `model.rs`): the four values bound
by the `INSERT INTO users` statement. -/
structure CreateUser where
  name : String
  password : String
  email : String
  avatar_url : Option String
deriving DecidableEq, Repr

/-- row of the `workspaces` table: `id BIGSERIAL PRIMARY KEY, public BOOL,
type SMALLINT`. -/
structure Workspace where
  id : Nat
  public : Bool
  type_ : WorkspaceType
deriving DecidableEq, Repr

/-- row of the `permissions` table: `id BIGSERIAL PRIMARY KEY, workspace_id,
user_id, user_email, type, accepted`, with
`UNIQUE (workspace_id, user_id)` and `UNIQUE (workspace_id, user_email)`
(SQL `NULL`s never collide under UNIQUE, hence the `Option` keys). -/
structure Permission where
  id : Nat
  workspace_id : Nat
  user_id : Option Nat
  user_email : Option String
  type_ : PermissionType
  accepted : Bool
deriving DecidableEq, Repr

/-- tagged identity returned by `create_permission` and
`get_user_in_workspace_by_email`. -/
inductive UserCred where
  | Registered (user : User)
  | UnRegistered (email : String)
deriving DecidableEq, Repr

/-- result record of `get_user_in_workspace_by_email`. -/
structure UserInWorkspace where
  user : UserCred
  in_workspace : Bool
deriving DecidableEq, Repr

/-- the whole store: the three tables plus the serial counters. -/
structure DBState where
  users : List User
  workspaces : List Workspace
  permissions : List Permission
  next_user_id : Nat
  next_workspace_id : Nat
  next_permission_id : Nat
deriving DecidableEq, Repr

/-- state of a store right after `init_db`: empty tables, serials at 1. -/
def initState : DBState :=
  { users := [], workspaces := [], permissions := [],
    next_user_id := 1, next_workspace_id := 1, next_permission_id := 1 }

/-- Embedding of `get_user_by_email`: `SELECT ... FROM users WHERE email = $1`,
`fetch_optional`. -/
def get_user_by_email (s : DBState) (email : String) : Option User :=
  (s.users.filter (fun u => decide (u.email = email))).head?

/-- Embedding of `update_cred`: `UPDATE permissions SET user_id = $1, user_email = NULL
WHERE user_email = $2`, run inside the caller's transaction. -/
def update_cred (s : DBState) (user_id : Nat) (user_email : String) : DBState :=
  { s with permissions := s.permissions.map (fun p =>
      if p.user_email = some user_email then
        { p with user_id := some user_id, user_email := none }
      else p) }

/-- Embedding of `create_workspace`: inside the caller's transaction, insert a workspace
row `(public = false, type = $1)` and then an `Owner` permission row
`(user_id, workspace_id, type = Owner, accepted = True)`, returning the
fresh workspace. -/
def create_workspace (s : DBState) (user_id : Nat) (ws_type : WorkspaceType) :
    Workspace × DBState :=
  let w : Workspace :=
    { id := s.next_workspace_id, public := false, type_ := ws_type }
  let grant : Permission :=
    { id := s.next_permission_id, workspace_id := w.id,
      user_id := some user_id, user_email := none,
      type_ := PermissionType.Owner, accepted := true }
  (w, { s with
          workspaces := s.workspaces ++ [w],
          permissions := s.permissions ++ [grant],
          next_workspace_id := s.next_workspace_id + 1,
          next_permission_id := s.next_permission_id + 1 })

/-- Embedding of `create_user`: one transaction doing
`INSERT INTO users ... ON CONFLICT email DO NOTHING RETURNING ...`
(the UNIQUE (email) hit yields no row, and the early `return Ok(None)` drops
the transaction, so nothing is committed), then `create_workspace(Private)`,
then `update_cred`, then commit. -/
def create_user (s : DBState) (u : CreateUser) : Option User × DBState :=
  if s.users.any (fun x => decide (x.email = u.email)) then
    (none, s)
  else
    let newUser : User :=
      { id := s.next_user_id, name := u.name, email := u.email,
        avatar_url := u.avatar_url, password := some u.password }
    let s1 := { s with users := s.users ++ [newUser],
                       next_user_id := s.next_user_id + 1 }
    let s2 := (create_workspace s1 newUser.id WorkspaceType.Private).2
    let s3 := update_cred s2 newUser.id newUser.email
    (some newUser, s3)

/-- Embedding of `create_normal_workspace`: a transaction around
`create_workspace(Normal)`. -/
def create_normal_workspace (s : DBState) (user_id : Nat) :
    Workspace × DBState :=
  let ws := create_workspace s user_id WorkspaceType.Normal
  (ws.1, ws.2)

/-- Embedding of `update_workspace`: `UPDATE workspaces SET public = $1 WHERE id = $2 AND
type = Normal RETURNING ...`, `fetch_optional`. When no row matches, the
update affects nothing and the state is returned unchanged. -/
def update_workspace (s : DBState) (workspace_id : Nat) (public : Bool) :
    Option Workspace × DBState :=
  match (s.workspaces.filter (fun w =>
      decide (w.id = workspace_id ∧ w.type_ = WorkspaceType.Normal))).head? with
  | some w =>
    (some { w with public := public },
     { s with workspaces := s.workspaces.map (fun x =>
         if x.id = workspace_id ∧ x.type_ = WorkspaceType.Normal then
           { x with public := public }
         else x) })
  | none => (none, s)

/-- Embedding of `delete_workspace`: `DELETE FROM workspaces CASCADE WHERE id = $1 AND
type = Normal`, reporting `rows_affected != 0`. The `ON DELETE CASCADE` of
`permissions.workspace_id` removes the grants of a deleted workspace; since
`workspaces.id` is the primary key, all deleted rows have id `workspace_id`. -/
def delete_workspace (s : DBState) (workspace_id : Nat) : Bool × DBState :=
  if s.workspaces.any (fun w =>
      decide (w.id = workspace_id ∧ w.type_ = WorkspaceType.Normal)) then
    (true,
     { s with
         workspaces := s.workspaces.filter (fun w =>
           decide (¬(w.id = workspace_id ∧ w.type_ = WorkspaceType.Normal))),
         permissions := s.permissions.filter (fun p =>
           decide (¬ p.workspace_id = workspace_id)) })
  else
    (false, s)

/-- Embedding of `can_read_workspace`: `SELECT FROM permissions WHERE user_id = $1 AND
workspace_id = $2 OR (SELECT True FROM workspaces WHERE id = $2 AND
public = True)`, `fetch_optional.is_some`. SQL precedence groups the `AND`
first; the filter runs once per `permissions` row, and the `workspaces`
subquery does not depend on that row, so the statement returns a row iff
some permissions row satisfies the disjunction. -/
def can_read_workspace (s : DBState) (user_id : Nat) (workspace_id : Nat) :
    Bool :=
  s.permissions.any (fun p =>
    decide ((p.user_id = some user_id ∧ p.workspace_id = workspace_id) ∨
      (s.workspaces.any (fun w =>
        decide (w.id = workspace_id ∧ w.public = true)) = true)))

/-- identity key that `create_permission` binds into its INSERT: the user id
when `email` resolves to a registered user, the bare email otherwise
(the other column is bound `NULL`). -/
def invite_key (s : DBState) (email : String) : Option Nat × Option String :=
  match get_user_by_email s email with
  | some u => (some u.id, none)
  | none => (none, some email)

/-- does a permissions row collide with key `k` on workspace `wid` under
`UNIQUE (workspace_id, user_id)` / `UNIQUE (workspace_id, user_email)`?
A `NULL` column never collides. -/
def key_conflict (wid : Nat) (k : Option Nat × Option String)
    (p : Permission) : Bool :=
  decide (p.workspace_id = wid ∧
    ((k.1.isSome ∧ p.user_id = k.1) ∨ (k.2.isSome ∧ p.user_email = k.2)))

/-- Embedding of `create_permission`: resolve `email` through `get_user_by_email`, then
`INSERT INTO permissions (user_id, user_email, workspace_id, type)
SELECT $1, $2, $3, $4 FROM workspaces WHERE workspaces.type = Normal AND
workspaces.id = $3 ON CONFLICT DO NOTHING RETURNING id`, `fetch_optional`.
The inner SELECT contributes a row only if workspace `$3` exists with kind
`Normal` (`workspaces.id` is the primary key, so at most one row matches);
a UNIQUE hit inserts nothing; `accepted` takes its column default `False`. -/
def create_permission (s : DBState) (email : String) (workspace_id : Nat)
    (permission_type : PermissionType) : Option (Nat × UserCred) × DBState :=
  let user := get_user_by_email s email
  let k := invite_key s email
  let cred : UserCred :=
    match user with
    | some u => UserCred.Registered u
    | none => UserCred.UnRegistered email
  if ¬ (s.workspaces.any (fun w =>
      decide (w.type_ = WorkspaceType.Normal ∧ w.id = workspace_id)) = true) then
    (none, s)
  else if s.permissions.any (key_conflict workspace_id k) then
    (none, s)
  else
    let grant : Permission :=
      { id := s.next_permission_id, workspace_id := workspace_id,
        user_id := k.1, user_email := k.2,
        type_ := permission_type, accepted := false }
    (some (grant.id, cred),
     { s with permissions := s.permissions ++ [grant],
              next_permission_id := s.next_permission_id + 1 })

/-- Embedding of `accept_permission`: `UPDATE permissions SET accepted = True WHERE
id = $1 RETURNING ...`, `fetch_optional`. -/
def accept_permission (s : DBState) (permission_id : Nat) :
    Option Permission × DBState :=
  match (s.permissions.filter (fun p => decide (p.id = permission_id))).head? with
  | some p =>
    (some { p with accepted := true },
     { s with permissions := s.permissions.map (fun q =>
         if q.id = permission_id then { q with accepted := true } else q) })
  | none => (none, s)

/-- Embedding of `delete_permission`: `DELETE FROM permissions WHERE id = $1`, reporting
`rows_affected != 0`. -/
def delete_permission (s : DBState) (permission_id : Nat) : Bool × DBState :=
  (s.permissions.any (fun p => decide (p.id = permission_id)),
   { s with permissions := s.permissions.filter (fun p =>
       decide (¬ p.id = permission_id)) })

/-- Embedding of `delete_permission_by_query`: `DELETE FROM permissions WHERE user_id = $1
AND workspace_id = $2 AND type != Owner`, reporting `rows_affected != 0`. -/
def delete_permission_by_query (s : DBState) (user_id : Nat)
    (workspace_id : Nat) : Bool × DBState :=
  (s.permissions.any (fun p =>
     decide (p.user_id = some user_id ∧ p.workspace_id = workspace_id ∧
       ¬ p.type_ = PermissionType.Owner)),
   { s with permissions := s.permissions.filter (fun p =>
       decide (¬ (p.user_id = some user_id ∧ p.workspace_id = workspace_id ∧
         ¬ p.type_ = PermissionType.Owner))) })

/-- Embedding of `get_user_in_workspace_by_email`: the first statement is
`SELECT ... FROM users` with no WHERE clause, so `fetch_optional` yields the
first stored user, whatever `email` says; only when the table is empty does
the fallback branch consult `email` against `permissions.user_email`. -/
def get_user_in_workspace_by_email (s : DBState) (workspace_id : Nat)
    (email : String) : UserInWorkspace :=
  match s.users.head? with
  | some user =>
    { user := UserCred.Registered user,
      in_workspace := s.permissions.any (fun p =>
        decide (p.workspace_id = workspace_id ∧ p.user_id = some user.id)) }
  | none =>
    { user := UserCred.UnRegistered email,
      in_workspace := s.permissions.any (fun p =>
        decide (p.workspace_id = workspace_id ∧ p.user_email = some email)) }

/-! Concrete states, built by running the operations from `initState`; they
replay the scenario of the design document (register alice, create a Normal
workspace, invite bob by email, register bob). -/

/-- registration arguments for alice. -/
def aliceCU : CreateUser :=
  { name := "alice", password := "pw", email := "alice@x.com", avatar_url := none }

/-- registration arguments for bob. -/
def bobCU : CreateUser :=
  { name := "bob", password := "pw2", email := "bob@x.com", avatar_url := none }

/-- user row created for alice. -/
def aliceUser : User :=
  { id := 1, name := "alice", email := "alice@x.com", avatar_url := none,
    password := some "pw" }

/-- user row created for bob. -/
def bobUser : User :=
  { id := 2, name := "bob", email := "bob@x.com", avatar_url := none,
    password := some "pw2" }

/-- store after registering alice: user 1, Private workspace 1, Owner grant 1. -/
def st_alice : DBState := (create_user initState aliceCU).2

/-- store after alice additionally creates Normal workspace 2 (Owner grant 2). -/
def st_two_ws : DBState := (create_normal_workspace st_alice 1).2

/-- store after inviting the unregistered `bob@x.com` to workspace 2 with
role `Write` (email-keyed grant 3). -/
def st_invited : DBState :=
  (create_permission st_two_ws ("bob@x.com") 2 PermissionType.Write).2

/-- store reached by making Normal workspace 2 public and then deleting both
grants through `delete_permission`: a public workspace while the
`permissions` table is empty. -/
def st_public_orphan : DBState :=
  let t1 := (update_workspace st_two_ws 2 true).2
  let t2 := (delete_permission t1 1).2
  (delete_permission t2 2).2

end JwstStorage

namespace JwstStorage

/-- C2: a `create_user` call whose email is already present in `users` hits
the `ON CONFLICT email DO NOTHING` branch: no row comes back, the early
return drops the transaction, and the call yields `None` with the store
untouched — no user row, no private workspace, no grant. -/
theorem create_user_email_collision (s : DBState) (cu : CreateUser)
    (h : ∃ u0 ∈ s.users, u0.email = cu.email) :
    create_user s cu = (none, s) := by
  have hc : (s.users.any (fun x => decide (x.email = cu.email))) = true := by
    simp only [List.any_eq_true, decide_eq_true_eq]
    exact h
  simp [create_user, hc]

/-- C2 witness: registering alice's email a second time returns `None` and
leaves the store exactly as it was. -/
theorem create_user_email_collision_witness :
    create_user st_alice aliceCU = (none, st_alice) :=
  create_user_email_collision st_alice aliceCU (by decide)

/-- C7: `create_permission` inserts through
`INSERT ... SELECT ... FROM workspaces WHERE type = Normal AND id = $3`;
when no Normal workspace with the target id exists (absent id or Private
workspace), the inner SELECT is empty, nothing is inserted, and the call
yields `None` with the store untouched. -/
theorem create_permission_requires_normal_workspace (s : DBState)
    (email : String) (wid : Nat) (r : PermissionType)
    (h : ∀ w ∈ s.workspaces, ¬(w.id = wid ∧ w.type_ = WorkspaceType.Normal)) :
    create_permission s email wid r = (none, s) := by
  have hc : (s.workspaces.any (fun w =>
      decide (w.type_ = WorkspaceType.Normal ∧ w.id = wid))) = false := by
    simp only [List.any_eq_false, decide_eq_true_eq]
    intro w hw hcon
    exact h w hw ⟨hcon.2, hcon.1⟩
  unfold create_permission
  rw [hc]
  simp

/-- C7 witness: inviting to alice's Private workspace 1 returns `None` and
inserts nothing. -/
theorem create_permission_requires_normal_workspace_witness :
    create_permission st_alice ("bob@x.com") 1 PermissionType.Write =
      (none, st_alice) :=
  create_permission_requires_normal_workspace st_alice ("bob@x.com") 1
    PermissionType.Write (by decide)

/-- C9: the user lookup of `get_user_in_workspace_by_email` is
`SELECT ... FROM users` with no WHERE clause, so whenever at least one user
row exists the whole result — identity classification and `in_workspace`
flag — is the same for any two email arguments. -/
theorem get_user_in_workspace_ignores_email (s : DBState) (wid : Nat)
    (h : s.users ≠ []) (e1 e2 : String) :
    get_user_in_workspace_by_email s wid e1 =
      get_user_in_workspace_by_email s wid e2 := by
  unfold get_user_in_workspace_by_email
  cases hu : s.users with
  | nil => exact absurd hu h
  | cons a l => simp [hu]

/-- C9 witness: with alice registered, looking up two entirely different
emails in workspace 1 gives identical results. -/
theorem get_user_in_workspace_ignores_email_witness :
    get_user_in_workspace_by_email st_alice 1 ("bob@x.com") =
      get_user_in_workspace_by_email st_alice 1 ("carol@y.org") :=
  get_user_in_workspace_ignores_email st_alice 1 (by decide)
    ("bob@x.com") ("carol@y.org")

/-- C5 counterexample: in the reachable store `st_public_orphan`, workspace 2
is public and the `permissions` table is empty; the claim says `canRead`
must then be true for any user, but `can_read_workspace` iterates over the
(empty) `permissions` table and returns false. -/
theorem can_read_workspace_public_counterexample :
    ¬ (can_read_workspace st_public_orphan 99 2 = true ↔
        ((∃ p ∈ st_public_orphan.permissions,
            p.user_id = some 99 ∧ p.workspace_id = 2) ∨
         (∃ w ∈ st_public_orphan.workspaces, w.id = 2 ∧ w.public = true))) := by
  decide

/-- C5 amended: `can_read_workspace u w` is true iff `u` holds some grant on
`w`, or `w` is public AND the `permissions` table holds at least one row
(of any workspace): the SQL selects from `permissions`, so the per-row
public-workspace disjunct can only fire when some permissions row exists. -/
theorem can_read_workspace_characterization (s : DBState) (uid wid : Nat) :
    can_read_workspace s uid wid = true ↔
      ((∃ p ∈ s.permissions, p.user_id = some uid ∧ p.workspace_id = wid) ∨
       (s.permissions ≠ [] ∧
        ∃ w ∈ s.workspaces, w.id = wid ∧ w.public = true)) := by
  unfold can_read_workspace
  simp only [List.any_eq_true, decide_eq_true_eq]
  constructor
  · rintro ⟨p, hp, hc | hw⟩
    · exact Or.inl ⟨p, hp, hc⟩
    · refine Or.inr ⟨?_, hw⟩
      intro hnil
      rw [hnil] at hp
      cases hp
  · rintro (⟨p, hp, hc⟩ | ⟨hne, hw⟩)
    · exact ⟨p, hp, Or.inl hc⟩
    · obtain ⟨p, hp⟩ := List.exists_mem_of_ne_nil _ hne
      exact ⟨p, hp, Or.inr hw⟩

/-- C8: `update_workspace` runs `UPDATE ... WHERE id = $2 AND type = Normal
RETURNING ...`. When a Normal workspace with the id exists it comes back
with the new `public` value; when the id is absent or names a Private
workspace, the same empty result `(None, unchanged store)` is produced, so
the two failure cases are indistinguishable to the caller. -/
theorem update_workspace_normal_only (s : DBState) (wid : Nat) (pub : Bool) :
    (∀ w0, s.workspaces.filter (fun w =>
        decide (w.id = wid ∧ w.type_ = WorkspaceType.Normal)) = [w0] →
      (update_workspace s wid pub).1 = some { w0 with public := pub }) ∧
    ((∀ w ∈ s.workspaces, ¬(w.id = wid ∧ w.type_ = WorkspaceType.Normal)) →
      update_workspace s wid pub = (none, s)) := by
  constructor
  · intro w0 hf
    unfold update_workspace
    rw [hf]
    rfl
  · intro h
    have hf : s.workspaces.filter (fun w =>
        decide (w.id = wid ∧ w.type_ = WorkspaceType.Normal)) = [] := by
      rw [List.filter_eq_nil_iff]
      intro w hw
      simpa using h w hw
    unfold update_workspace
    rw [hf]
    rfl

/-- C8 witness: publishing Normal workspace 2 returns it with
`public = true`, while the same update aimed at Private workspace 1 returns
`None` and leaves the store unchanged. -/
theorem update_workspace_normal_only_witness :
    (update_workspace st_two_ws 2 true).1 =
      some { id := 2, public := true, type_ := WorkspaceType.Normal } ∧
    update_workspace st_two_ws 1 true = (none, st_two_ws) := by
  constructor
  · exact (update_workspace_normal_only st_two_ws 2 true).1
      { id := 2, public := false, type_ := WorkspaceType.Normal } (by decide)
  · exact (update_workspace_normal_only st_two_ws 1 true).2 (by decide)

/-- C6: `delete_permission_by_query` deletes with `WHERE user_id = $1 AND
workspace_id = $2 AND type != Owner` and reports `rows_affected != 0`.
When the (unique) grant of the pair has role Owner, nothing matches: the
call returns false and the store is unchanged. With any non-Owner role the
grant is deleted, the call returns true, and every other grant survives. -/
theorem delete_permission_by_query_owner_guard (s : DBState) (uid wid : Nat)
    (p0 : Permission)
    (hone : s.permissions.filter (fun p =>
        decide (p.user_id = some uid ∧ p.workspace_id = wid)) = [p0]) :
    (p0.type_ = PermissionType.Owner →
      delete_permission_by_query s uid wid = (false, s)) ∧
    (¬ p0.type_ = PermissionType.Owner →
      (delete_permission_by_query s uid wid).1 = true ∧
      p0 ∉ (delete_permission_by_query s uid wid).2.permissions ∧
      ∀ q ∈ s.permissions, q ≠ p0 →
        q ∈ (delete_permission_by_query s uid wid).2.permissions) := by
  have huniq : ∀ q ∈ s.permissions,
      q.user_id = some uid → q.workspace_id = wid → q = p0 := by
    intro q hq h1 h2
    have : q ∈ s.permissions.filter (fun p =>
        decide (p.user_id = some uid ∧ p.workspace_id = wid)) := by
      rw [List.mem_filter]
      exact ⟨hq, by simp [h1, h2]⟩
    rw [hone] at this
    simpa using this
  have hp0 : p0 ∈ s.permissions ∧ p0.user_id = some uid ∧
      p0.workspace_id = wid := by
    have : p0 ∈ s.permissions.filter (fun p =>
        decide (p.user_id = some uid ∧ p.workspace_id = wid)) := by
      rw [hone]; exact List.mem_singleton.mpr rfl
    rw [List.mem_filter] at this
    exact ⟨this.1, by simpa using this.2⟩
  constructor
  · intro hown
    have hany : (s.permissions.any (fun p =>
        decide (p.user_id = some uid ∧ p.workspace_id = wid ∧
          ¬ p.type_ = PermissionType.Owner))) = false := by
      simp only [List.any_eq_false, decide_eq_true_eq]
      rintro q hq ⟨h1, h2, h3⟩
      exact h3 (huniq q hq h1 h2 ▸ hown)
    have hkeep : s.permissions.filter (fun p =>
        decide (¬ (p.user_id = some uid ∧ p.workspace_id = wid ∧
          ¬ p.type_ = PermissionType.Owner))) = s.permissions := by
      rw [List.filter_eq_self]
      intro q hq
      simp only [decide_eq_true_eq]
      rintro ⟨h1, h2, h3⟩
      exact h3 (huniq q hq h1 h2 ▸ hown)
    unfold delete_permission_by_query
    rw [hany, hkeep]
  · intro hnotown
    refine ⟨?_, ?_, ?_⟩
    · unfold delete_permission_by_query
      simp only [List.any_eq_true, decide_eq_true_eq]
      exact ⟨p0, hp0.1, hp0.2.1, hp0.2.2, hnotown⟩
    · unfold delete_permission_by_query
      intro hmem
      rw [List.mem_filter] at hmem
      have := hmem.2
      simp only [decide_eq_true_eq] at this
      exact this ⟨hp0.2.1, hp0.2.2, hnotown⟩
    · intro q hq hne
      unfold delete_permission_by_query
      rw [List.mem_filter]
      refine ⟨hq, ?_⟩
      simp only [decide_eq_true_eq]
      rintro ⟨h1, h2, _⟩
      exact hne (huniq q hq h1 h2)

/-- C6 witness: alice's Owner grant on her Private workspace survives the
query-based revoke (false, unchanged store), while bob's Write grant on
workspace 2 in `st_invited ▸ register bob` is removed with result true. -/
theorem delete_permission_by_query_owner_guard_witness :
    delete_permission_by_query st_alice 1 1 = (false, st_alice) ∧
    (delete_permission_by_query (create_user st_invited bobCU).2 2 2).1 =
      true := by
  constructor
  · exact (delete_permission_by_query_owner_guard st_alice 1 1
      { id := 1, workspace_id := 1, user_id := some 1, user_email := none,
        type_ := PermissionType.Owner, accepted := true } (by decide)).1 rfl
  · exact ((delete_permission_by_query_owner_guard
      (create_user st_invited bobCU).2 2 2
      { id := 3, workspace_id := 2, user_id := some 2, user_email := none,
        type_ := PermissionType.Write, accepted := false }
      (by decide)).2 (by decide)).1

/-- C10: `create_workspace` inserts `(public, type) VALUES (false, $1)`, so
the workspace it returns — and hence every workspace produced by
`create_user` (Private) or `create_normal_workspace` (Normal) — starts with
`public = false`: each of those operations only adds workspaces whose flag
is false. Every other operation (`create_permission`, `accept_permission`,
`delete_permission`, `delete_permission_by_query`, `delete_workspace`,
`update_cred`) leaves every surviving workspace row as it was, so only
`update_workspace` can later set the flag to true. -/
theorem workspace_public_false_at_creation (s : DBState) :
    (∀ uid t, (create_workspace s uid t).1.public = false) ∧
    (∀ uid t, ((create_workspace s uid t).2.workspaces.all (fun w =>
        decide (w ∈ s.workspaces ∨ w.public = false))) = true) ∧
    (∀ cu, ((create_user s cu).2.workspaces.all (fun w =>
        decide (w ∈ s.workspaces ∨ w.public = false))) = true) ∧
    (∀ uid, (create_normal_workspace s uid).1.public = false) ∧
    (∀ uid, ((create_normal_workspace s uid).2.workspaces.all (fun w =>
        decide (w ∈ s.workspaces ∨ w.public = false))) = true) ∧
    (∀ email wid r, ((create_permission s email wid r).2.workspaces.all
        (fun w => decide (w ∈ s.workspaces))) = true) ∧
    (∀ pid, ((accept_permission s pid).2.workspaces.all (fun w =>
        decide (w ∈ s.workspaces))) = true) ∧
    (∀ pid, ((delete_permission s pid).2.workspaces.all (fun w =>
        decide (w ∈ s.workspaces))) = true) ∧
    (∀ uid wid, ((delete_permission_by_query s uid wid).2.workspaces.all
        (fun w => decide (w ∈ s.workspaces))) = true) ∧
    (∀ wid, ((delete_workspace s wid).2.workspaces.all (fun w =>
        decide (w ∈ s.workspaces))) = true) ∧
    (∀ uid em, ((update_cred s uid em).workspaces.all (fun w =>
        decide (w ∈ s.workspaces))) = true) := by
  have hcw : ∀ uid t, ((create_workspace s uid t).2.workspaces.all (fun w =>
      decide (w ∈ s.workspaces ∨ w.public = false))) = true := by
    intro uid t
    simp only [create_workspace, List.all_eq_true, List.mem_append,
      decide_eq_true_eq]
    rintro w (hw | hw)
    · exact Or.inl hw
    · rw [List.mem_singleton] at hw
      subst hw
      exact Or.inr rfl
  refine ⟨fun uid t => rfl, hcw, ?_, fun uid => rfl, fun uid => hcw uid _,
    ?_, ?_, ?_, ?_, ?_, fun uid em => ?_⟩
  · intro cu
    unfold create_user
    split
    · simp only [List.all_eq_true, decide_eq_true_eq]
      exact fun x hx => Or.inl hx
    · dsimp only
      simp only [update_cred, create_workspace, List.all_eq_true,
        List.mem_append, decide_eq_true_eq]
      rintro w (hw | hw)
      · exact Or.inl hw
      · rw [List.mem_singleton] at hw
        subst hw
        exact Or.inr rfl
  · intro email wid r
    unfold create_permission
    split
    · simp [List.all_eq_true]
    · dsimp only
      split <;> simp [List.all_eq_true]
  · intro pid
    unfold accept_permission
    split <;> simp [List.all_eq_true]
  · intro pid
    simp [delete_permission, List.all_eq_true]
  · intro uid wid
    simp [delete_permission_by_query, List.all_eq_true]
  · intro wid
    unfold delete_workspace
    split
    · simp only [List.all_eq_true, decide_eq_true_eq]
      intro w hw
      exact (List.mem_filter.mp hw).1
    · simp [List.all_eq_true]
  · simp [update_cred, List.all_eq_true]

/-- the `update_cred` rewrite never touches `workspace_id`, so filtering the
rewritten rows for a workspace id that no original row referenced yields
nothing. -/
theorem filter_update_cred_fresh (l : List Permission) (uid : Nat)
    (em : String) (wid : Nat) (h : ∀ p ∈ l, p.workspace_id ≠ wid) :
    ((l.map (fun p =>
        if p.user_email = some em then
          { p with user_id := some uid, user_email := none }
        else p)).filter (fun p => decide (p.workspace_id = wid))) = [] := by
  rw [List.filter_eq_nil_iff]
  intro q hq
  rw [List.mem_map] at hq
  obtain ⟨p, hp, rfl⟩ := hq
  have hne := h p hp
  by_cases hc : p.user_email = some em <;> simp [hc, hne]

/-- C1: when `create_user` succeeds it has, in one committed transaction,
appended exactly one user row, appended exactly one workspace — Private,
non-public — and left that workspace carrying exactly one grant: an Owner
grant for the new user's id with `accepted = true` (the freshness
hypothesis is the `BIGSERIAL` guarantee that no stored grant references the
still-unallocated workspace id). The reconciliation rewrite ran in the same
transaction, and it never binds the new workspace's id. -/
theorem create_user_provisions_private_workspace (s : DBState)
    (cu : CreateUser) (u : User) (s2 : DBState)
    (hfresh : ∀ p ∈ s.permissions, p.workspace_id ≠ s.next_workspace_id)
    (h : create_user s cu = (some u, s2)) :
    ∃ w : Workspace,
      s2.workspaces = s.workspaces ++ [w] ∧
      w.type_ = WorkspaceType.Private ∧
      w.public = false ∧
      (s2.permissions.filter (fun p => decide (p.workspace_id = w.id))) =
        [{ id := s.next_permission_id, workspace_id := w.id,
           user_id := some u.id, user_email := none,
           type_ := PermissionType.Owner, accepted := true }] ∧
      u.id = s.next_user_id ∧
      s2.users = s.users ++ [u] := by
  unfold create_user at h
  split at h
  · exact absurd (congrArg Prod.fst h) (by simp)
  · dsimp only at h
    obtain ⟨h1, h2⟩ := Prod.mk.injEq .. ▸ h
    obtain rfl : _ = u := Option.some.injEq .. ▸ h1
    subst h2
    refine ⟨{ id := s.next_workspace_id, public := false,
              type_ := WorkspaceType.Private }, rfl, rfl, rfl, ?_, rfl, rfl⟩
    show (((s.permissions ++ [_]).map _).filter _) = _
    rw [List.map_append, List.filter_append,
      filter_update_cred_fresh s.permissions s.next_user_id cu.email
        s.next_workspace_id hfresh]
    simp

/-- C1 witness: registering alice in the empty store provisions Private
workspace 1 with the single Owner grant for user 1, accepted. -/
theorem create_user_provisions_private_workspace_witness :
    ∃ w : Workspace,
      st_alice.workspaces = initState.workspaces ++ [w] ∧
      w.type_ = WorkspaceType.Private ∧
      w.public = false ∧
      (st_alice.permissions.filter (fun p => decide (p.workspace_id = w.id))) =
        [{ id := initState.next_permission_id, workspace_id := w.id,
           user_id := some aliceUser.id, user_email := none,
           type_ := PermissionType.Owner, accepted := true }] ∧
      aliceUser.id = initState.next_user_id ∧
      st_alice.users = initState.users ++ [aliceUser] :=
  create_user_provisions_private_workspace initState aliceCU aliceUser
    st_alice (by decide) (by decide)

/-- C3: a successful registration rewrites, inside its own transaction,
every grant keyed by the new email: the row keeps its id, workspace
reference, role and acceptance flag, while `user_id` becomes the new
user's id and `user_email` is cleared to `NULL`. -/
theorem create_user_reconciles_email_grants (s : DBState) (cu : CreateUser)
    (u : User) (s2 : DBState) (p : Permission)
    (h : create_user s cu = (some u, s2)) (hp : p ∈ s.permissions)
    (he : p.user_email = some cu.email) :
    { p with user_id := some u.id, user_email := none } ∈ s2.permissions := by
  unfold create_user at h
  split at h
  · exact absurd (congrArg Prod.fst h) (by simp)
  · dsimp only at h
    obtain ⟨h1, h2⟩ := Prod.mk.injEq .. ▸ h
    obtain rfl : _ = u := Option.some.injEq .. ▸ h1
    subst h2
    dsimp only
    show _ ∈ (s.permissions ++ [_]).map _
    rw [List.map_append]
    refine List.mem_append_left _ ?_
    have hfp : (fun q : Permission =>
          if q.user_email = some cu.email then
            { q with user_id := some s.next_user_id, user_email := none }
          else q) p
        = { p with user_id := some s.next_user_id, user_email := none } := by
      simp [he]
    rw [← hfp]
    exact List.mem_map_of_mem _ hp

/-- C3 witness: bob's pending `Write` invite on workspace 2 (grant 3,
email-keyed, unaccepted) is, after bob registers, bound to user id 2 with
the email cleared and id, workspace, role and acceptance intact. -/
theorem create_user_reconciles_email_grants_witness :
    ({ id := 3, workspace_id := 2, user_id := some bobUser.id,
       user_email := none, type_ := PermissionType.Write, accepted := false }
      : Permission) ∈ (create_user st_invited bobCU).2.permissions := by
  have hmem :
      ({ id := 3, workspace_id := 2, user_id := none,
         user_email := some ("bob@x.com"), type_ := PermissionType.Write,
         accepted := false } : Permission) ∈ st_invited.permissions := by
    decide
  exact create_user_reconciles_email_grants st_invited bobCU bobUser
    (create_user st_invited bobCU).2 _ (by decide) hmem (by decide)

/-- a `create_permission` call that hits the UNIQUE constraint (some stored
grant collides with the resolved identity key on that workspace) is
absorbed by `ON CONFLICT DO NOTHING`: no row comes back and the store is
untouched. -/
theorem create_permission_conflict (s : DBState) (email : String) (wid : Nat)
    (r : PermissionType)
    (hconf : s.permissions.any (key_conflict wid (invite_key s email)) = true) :
    create_permission s email wid r = (none, s) := by
  unfold create_permission
  dsimp only
  split
  · rfl
  · rfl

/-- C4: after a successful invite of `email` to workspace `wid`, repeating
the call with identical arguments finds the grant just inserted colliding
on the same identity key, so the second call returns `None` and leaves the
store — in particular the first grant's role and acceptance flag — exactly
as it was; and the grants held by that identity on `wid` are exactly the
one row the first call inserted (role `r`, `accepted = false`). -/
theorem create_permission_duplicate_absorbed (s : DBState) (email : String)
    (wid : Nat) (r : PermissionType) (res : Nat × UserCred) (s1 : DBState)
    (h : create_permission s email wid r = (some res, s1)) :
    create_permission s1 email wid r = (none, s1) ∧
    s1.permissions.filter (key_conflict wid (invite_key s email)) =
      [{ id := s.next_permission_id, workspace_id := wid,
         user_id := (invite_key s email).1,
         user_email := (invite_key s email).2,
         type_ := r, accepted := false }] := by
  unfold create_permission at h
  dsimp only at h
  split at h
  · exact absurd (congrArg Prod.fst h) (by simp)
  · rename ¬¬_ => hws
    split at h
    · exact absurd (congrArg Prod.fst h) (by simp)
    · rename ¬(List.any ..) = true => hnoc
      obtain ⟨h1, h2⟩ := Prod.mk.injEq .. ▸ h
      subst h2
      have hg : key_conflict wid (invite_key s email)
          { id := s.next_permission_id, workspace_id := wid,
            user_id := (invite_key s email).1,
            user_email := (invite_key s email).2,
            type_ := r, accepted := false } = true := by
        rcases hu : get_user_by_email s email with _ | v <;>
          simp [invite_key, key_conflict, hu]
      have hnone : ∀ p ∈ s.permissions,
          ¬ key_conflict wid (invite_key s email) p = true :=
        List.any_eq_false.mp ((Bool.not_eq_true _) ▸ hnoc)
      constructor
      · apply create_permission_conflict
        show ((s.permissions ++
            [({ id := s.next_permission_id, workspace_id := wid,
                user_id := (invite_key s email).1,
                user_email := (invite_key s email).2,
                type_ := r, accepted := false } : Permission)]).any
          (key_conflict wid (invite_key s email))) = true
        rw [List.any_append, List.any_cons, hg]
        simp
      · show (s.permissions ++ [_]).filter _ = _
        rw [List.filter_append]
        rw [List.filter_eq_nil_iff.mpr hnone]
        rw [List.nil_append]
        rw [List.filter_cons, hg]
        rfl

/-- C4 witness: inviting `bob@x.com` to Normal workspace 2 a second time
with role `Write` returns `None`, leaves the store at `st_invited`, and
exactly one grant for that email exists on workspace 2 — the `Write`
grant with `accepted = false` inserted by the first call. -/
theorem create_permission_duplicate_absorbed_witness :
    create_permission st_invited ("bob@x.com") 2 PermissionType.Write =
      (none, st_invited) ∧
    st_invited.permissions.filter
        (key_conflict 2 (invite_key st_two_ws ("bob@x.com"))) =
      [{ id := st_two_ws.next_permission_id, workspace_id := 2,
         user_id := (invite_key st_two_ws ("bob@x.com")).1,
         user_email := (invite_key st_two_ws ("bob@x.com")).2,
         type_ := PermissionType.Write, accepted := false }] :=
  create_permission_duplicate_absorbed st_two_ws ("bob@x.com") 2
    PermissionType.Write (3, UserCred.UnRegistered ("bob@x.com")) st_invited
    (by decide)

end JwstStorage
